import Mathlib

/-!
Shallow embedding of the asynchronous job-tracking core of the `ai-chat`
FastAPI application, translated from `src/app/main.py` (endpoints
`chat_background_celery` and `get_task_status`), `src/app/models.py`
(`TaskStatus`, `BackgroundTaskResponse`) and `src/app/database.py`
(`ChatTask`).

Modelling conventions:
* The `chat_tasks` database table is a `List ChatTask`; the SQLAlchemy
  `select ... where (id == task_id) & (user_id == current_user.id)` followed by
  `scalar_one_or_none()` is `List.find?` with the same predicate (`id` is the
  primary key, so at most one row matches).
* A Celery `AsyncResult` is a record of the executor's current view of a task
  id: its `state` string, the task's deserialized return value (`task.result`,
  present when the task has succeeded) and the string rendering of `task.info`
  (the exception text when the task has failed).
* Opaque JSON payloads (the task's result dict) are represented by their
  serialized form as a `String`.
* Timestamps are `Nat` ticks; floats (the request temperature) are not
  modelled because no claim-relevant code reads them.
* An endpoint is a pure function from its inputs (path/body parameters, the
  authenticated user's id, the database table, the executor's view) to the
  HTTP outcome paired with the database table after the call.
-/

/-- Task status enum from `src/app/models.py` lines 56-60.
The string values are "pending", "processing", "completed", "failed". -/
inductive TaskStatus where
  | pending
  | processing
  | completed
  | failed
deriving Repr, DecidableEq

/-- A status is terminal when it is `completed` (Succeeded) or `failed`. -/
def TaskStatus.isTerminal : TaskStatus → Bool
  | .completed => true
  | .failed => true
  | _ => false

/-- Serialized opaque JSON payload (a task's result dict). -/
abbrev ResultData := String

/-- Chat request body from `src/app/models.py` lines 37-41.
The `temperature` float field is omitted: it is never read by the code the
claims are about and floats are outside the embedding. -/
structure ChatRequest where
  message : String
  model : String
  max_tokens : Option Nat
deriving Repr, DecidableEq

/-- Row of the `chat_tasks` table, from `src/app/database.py` lines 40-50. -/
structure ChatTask where
  id : String
  user_id : Nat
  status : String
  request_data : ChatRequest
  result : Option ResultData
  error : Option String
  created_at : Nat
  updated_at : Nat
deriving Repr, DecidableEq

/-- Response model from `src/app/models.py` lines 62-66. -/
structure BackgroundTaskResponse where
  task_id : String
  status : TaskStatus
  result : Option ResultData
  error : Option String
deriving Repr, DecidableEq

/-- An `HTTPException` raised by an endpoint. -/
structure HTTPError where
  status_code : Nat
  detail : String
deriving Repr, DecidableEq

/-- Executor-side view of a task id, as exposed by Celery's
`celery_app.AsyncResult(task_id)` in `src/app/main.py` line 203.
`state` is the Celery state string; `retval` is `task.result`, the task's
deserialized return value once it has succeeded (`process_long_chat_task` in
`src/app/background_tasks.py` returns a dict on success, lines 61-65);
`info` is `str(task.info)`, the exception text when the task has failed. -/
structure AsyncResult where
  state : String
  retval : Option ResultData
  info : String
deriving Repr, DecidableEq

/-- Celery's `task.successful()`: the state equals `"SUCCESS"`. -/
def AsyncResult.successful (t : AsyncResult) : Bool :=
  t.state == "SUCCESS"

/-- Celery's `task.failed()`: the state equals `"FAILURE"`. -/
def AsyncResult.isFailed (t : AsyncResult) : Bool :=
  t.state == "FAILURE"

/-- Executor view of a task id the executor does not know (never submitted,
or its result has expired from the backend, `result_expires=3600` in
`src/app/background_tasks.py` line 25): Celery reports such an id as state
`"PENDING"` with no result. -/
def unknownHandleResult : AsyncResult :=
  { state := "PENDING", retval := none, info := "None" }

/-- The `status_mapping` dict lookup with default in `src/app/main.py`
lines 216-222 and 226: `status_mapping.get(task.state, TaskStatus.PENDING)`. -/
def status_mapping_get (state : String) : TaskStatus :=
  if state == "PENDING" then TaskStatus.pending
  else if state == "PROCESSING" then TaskStatus.processing
  else if state == "SUCCESS" then TaskStatus.completed
  else if state == "FAILURE" then TaskStatus.failed
  else TaskStatus.pending

/-- The `POST /chat/background` endpoint `chat_background_celery`,
`src/app/main.py` lines 143-172. `delayOutcome` is the outcome of
`process_long_chat_task.delay(...)`: either the new task's id, or the
exception raised when dispatch to the broker fails (in which case the
endpoint body is aborted before any database write and the exception
propagates). On success a `ChatTask` row is inserted with status
`"pending"` and the response reports `TaskStatus.PENDING`. -/
def chat_background_celery (request : ChatRequest) (current_user_id : Nat)
    (db : List ChatTask) (delayOutcome : Except String String) (now : Nat) :
    Except String BackgroundTaskResponse × List ChatTask :=
  match delayOutcome with
  | .error e => (.error e, db)
  | .ok taskId =>
    let chat_task : ChatTask :=
      { id := taskId
        user_id := current_user_id
        status := "pending"
        request_data := request
        result := none
        error := none
        created_at := now
        updated_at := now }
    (.ok { task_id := taskId
           status := TaskStatus.pending
           result := none
           error := none },
     db ++ [chat_task])

/-- The `GET /chat/tasks/{task_id}` endpoint `get_task_status`,
`src/app/main.py` lines 192-229. Looks up the `ChatTask` row whose `id` is
`task_id` and whose `user_id` is the caller's id; raises 404 "Task not found"
when none matches. Otherwise builds the response entirely from the Celery
`AsyncResult`: status is `status_mapping.get(task.state, TaskStatus.PENDING)`,
result is `task.result if task.successful() else None`, error is
`str(task.info) if task.failed() else None`. The database is never written. -/
def get_task_status (task_id : String) (current_user_id : Nat)
    (db : List ChatTask) (task : AsyncResult) :
    Except HTTPError BackgroundTaskResponse × List ChatTask :=
  match db.find? (fun t => t.id == task_id && t.user_id == current_user_id) with
  | none => (.error { status_code := 404, detail := "Task not found" }, db)
  | some _ =>
    (.ok { task_id := task_id
           status := status_mapping_get task.state
           result := if task.successful then task.retval else none
           error := if task.isFailed then some task.info else none },
     db)

/-- Sample request body used by concrete witnesses. -/
def sampleRequest : ChatRequest :=
  { message := "hello", model := "gpt-3.5-turbo", max_tokens := some 150 }

/-- A persisted row that has reached the terminal status `"completed"`,
with its result written. -/
def completedRow : ChatTask :=
  { id := "t1", user_id := 1, status := "completed"
    request_data := sampleRequest
    result := some "chat answer", error := none
    created_at := 0, updated_at := 5 }

/-- A persisted row in the non-terminal status `"processing"`. -/
def processingRow : ChatTask :=
  { id := "t2", user_id := 1, status := "processing"
    request_data := sampleRequest
    result := none, error := none
    created_at := 0, updated_at := 3 }

/-- A persisted row in the initial status `"pending"`. -/
def pendingRow : ChatTask :=
  { id := "t3", user_id := 1, status := "pending"
    request_data := sampleRequest
    result := none, error := none
    created_at := 0, updated_at := 0 }

/-- Executor view of a task that has succeeded with a result. -/
def successEx : AsyncResult :=
  { state := "SUCCESS", retval := some "fresh answer", info := "ok" }

/-- Executor view of a task that is in progress. -/
def processingEx : AsyncResult :=
  { state := "PROCESSING", retval := none, info := "progress" }

/-- Executor view of a task that has failed with an exception. -/
def failureEx : AsyncResult :=
  { state := "FAILURE", retval := none, info := "boom" }

/-!
Helper lemmas shared by several claim proofs.
-/

/-- When the ownership-filtered lookup finds a row, the endpoint's response is
built entirely from the path parameter and the executor's `AsyncResult`; no
field of the persisted row appears in it. -/
theorem get_task_status_found_eq (tid : String) (uid : Nat) (db : List ChatTask)
    (task : AsyncResult) (row : ChatTask)
    (hfound : db.find? (fun t => t.id == tid && t.user_id == uid) = some row) :
    (get_task_status tid uid db task).1 =
      Except.ok { task_id := tid
                  status := status_mapping_get task.state
                  result := if task.successful then task.retval else none
                  error := if task.isFailed then some task.info else none } := by
  simp [get_task_status, hfound]

/-- The mapping yields `completed` exactly on the Celery state `"SUCCESS"`. -/
theorem status_mapping_get_eq_completed_iff (s : String) :
    status_mapping_get s = TaskStatus.completed ↔ s = "SUCCESS" := by
  unfold status_mapping_get
  split_ifs with h1 h2 h3 h4 <;> simp_all

/-- The mapping yields `failed` exactly on the Celery state `"FAILURE"`. -/
theorem status_mapping_get_eq_failed_iff (s : String) :
    status_mapping_get s = TaskStatus.failed ↔ s = "FAILURE" := by
  unfold status_mapping_get
  split_ifs with h1 h2 h3 h4 <;> simp_all

/-- The mapping yields a terminal status exactly on the Celery states
`"SUCCESS"` and `"FAILURE"`. -/
theorem status_mapping_get_isTerminal_iff (s : String) :
    (status_mapping_get s).isTerminal = true ↔ s = "SUCCESS" ∨ s = "FAILURE" := by
  unfold status_mapping_get TaskStatus.isTerminal
  split_ifs with h1 h2 h3 h4 <;> simp_all

/-!
Claim theorems.
-/

/-- Claim C1, counterexample. A persisted row that is terminal
(`status = "completed"`, result written) is not shielded from the executor:
when Celery's retention has expired the `AsyncResult` reports `"PENDING"`, and
`get_task_status` answers with status `pending` and no result — not the
record's terminal status and result, contradicting the claim that a terminal
record is returned unchanged regardless of the executor's state. -/
theorem get_task_status_terminal_record_downgraded_cex :
    completedRow.status = "completed" ∧ completedRow.result = some "chat answer" ∧
    (get_task_status "t1" 1 [completedRow] unknownHandleResult).1 =
      Except.ok { task_id := "t1", status := TaskStatus.pending,
                  result := none, error := none } ∧
    TaskStatus.pending ≠ TaskStatus.completed :=
  ⟨rfl, rfl, rfl, by decide⟩

/-- Claim C1, amended. For a job id whose persisted record is terminal, a
subsequent `get_task_status` call returns the view derived from the executor's
live `AsyncResult` (mapped state, executor result, executor error); the
record's own status, result and error fields never reach the response, so the
live executor state can downgrade or alter what the caller sees. -/
theorem get_task_status_terminal_record_view_from_executor (tid : String)
    (uid : Nat) (db : List ChatTask) (task : AsyncResult) (row : ChatTask)
    (hfound : db.find? (fun t => t.id == tid && t.user_id == uid) = some row)
    (_hterm : row.status = "completed" ∨ row.status = "failed") :
    (get_task_status tid uid db task).1 =
      Except.ok { task_id := tid
                  status := status_mapping_get task.state
                  result := if task.successful then task.retval else none
                  error := if task.isFailed then some task.info else none } :=
  get_task_status_found_eq tid uid db task row hfound

/-- Claim C1, witness: the amended theorem instantiated at a terminal record
polled while the executor has forgotten the task id. -/
theorem get_task_status_terminal_record_view_from_executor_witness :
    (get_task_status "t1" 1 [completedRow] unknownHandleResult).1 =
      Except.ok { task_id := "t1"
                  status := status_mapping_get unknownHandleResult.state
                  result := if unknownHandleResult.successful then
                    unknownHandleResult.retval else none
                  error := if unknownHandleResult.isFailed then
                    some unknownHandleResult.info else none } :=
  get_task_status_terminal_record_view_from_executor "t1" 1 [completedRow]
    unknownHandleResult completedRow rfl (Or.inl rfl)

/-- Claim C2, counterexample. The record is non-terminal (`"processing"`) and
the executor has lost the handle (Celery reports an unknown id as
`"PENDING"`): `get_task_status` answers `pending` with no error — not
`failed` with a retention-expired error as the claim requires. -/
theorem get_task_status_expired_handle_cex :
    processingRow.status = "processing" ∧
    (get_task_status "t2" 1 [processingRow] unknownHandleResult).1 =
      Except.ok { task_id := "t2", status := TaskStatus.pending,
                  result := none, error := none } ∧
    TaskStatus.pending ≠ TaskStatus.failed :=
  ⟨rfl, rfl, by decide⟩

/-- Claim C2, amended. When the executor no longer knows the handle (Celery
reports state `"PENDING"` with no result for an expired or never-seen id) and
the persisted record is not terminal, `get_task_status` reports status
`pending` with no error and no result: the caller is left polling
indefinitely, not failed over with a retention-expired error. -/
theorem get_task_status_expired_handle_reports_pending (tid : String)
    (uid : Nat) (db : List ChatTask) (row : ChatTask)
    (hfound : db.find? (fun t => t.id == tid && t.user_id == uid) = some row)
    (_hnc : row.status ≠ "completed") (_hnf : row.status ≠ "failed") :
    (get_task_status tid uid db unknownHandleResult).1 =
      Except.ok { task_id := tid, status := TaskStatus.pending,
                  result := none, error := none } := by
  rw [get_task_status_found_eq tid uid db unknownHandleResult row hfound]
  rfl

/-- Claim C2, witness: the amended theorem at a `"processing"` record whose
executor handle has expired. -/
theorem get_task_status_expired_handle_reports_pending_witness :
    (get_task_status "t2" 1 [processingRow] unknownHandleResult).1 =
      Except.ok { task_id := "t2", status := TaskStatus.pending,
                  result := none, error := none } :=
  get_task_status_expired_handle_reports_pending "t2" 1 [processingRow]
    processingRow rfl (by decide) (by decide)

/-- Claim C3, counterexample. When `process_long_chat_task.delay` raises
(broker unreachable), `chat_background_celery` aborts before any database
write: the exception propagates, no job id is returned, and the table still
holds no record at all — in particular no record in status Failed with the
submission error populated, contradicting the claim. -/
theorem chat_background_celery_dispatch_failure_cex :
    chat_background_celery sampleRequest 1 [] (Except.error "connection refused") 0 =
      (Except.error "connection refused", ([] : List ChatTask)) :=
  rfl

/-- Claim C3, amended. When executor dispatch fails, the exception propagates
out of `chat_background_celery` (surfacing as an HTTP 500), the database is
left exactly as it was, and no job id or record — Pending, Failed or
otherwise — is created; consequently no record is ever left in Pending
without an executor handle backing it. -/
theorem chat_background_celery_dispatch_failure_propagates (request : ChatRequest)
    (uid : Nat) (db : List ChatTask) (e : String) (now : Nat) :
    chat_background_celery request uid db (Except.error e) now = (Except.error e, db) :=
  rfl

/-- Claim C4: a job id whose persisted record belongs to principal `a` is
invisible to any other principal `b`: `get_task_status` called by `b` returns
the 404 "Task not found" error and leaves the database unchanged; no field of
the underlying record appears in the response. -/
theorem get_task_status_ownership_isolation (tid : String) (a b : Nat)
    (db : List ChatTask) (task : AsyncResult)
    (hown : ∀ r ∈ db, r.id = tid → r.user_id = a) (hne : a ≠ b) :
    get_task_status tid b db task =
      (Except.error { status_code := 404, detail := "Task not found" }, db) := by
  have hfind : db.find? (fun t => t.id == tid && t.user_id == b) = none := by
    rw [List.find?_eq_none]
    intro x hx
    simp only [Bool.and_eq_true, beq_iff_eq, not_and]
    intro hid huid
    exact hne ((hown x hx hid) ▸ huid ▸ rfl)
  simp [get_task_status, hfind]

/-- Claim C4, witness: principal 2 polling the job of principal 1 gets the
404 error. -/
theorem get_task_status_ownership_isolation_witness :
    get_task_status "t1" 2 [completedRow] successEx =
      (Except.error { status_code := 404, detail := "Task not found" }, [completedRow]) :=
  get_task_status_ownership_isolation "t1" 1 2 [completedRow] successEx
    (by decide) (by decide)

/-- Claim C5, counterexample. The record is `"pending"` and the executor
reports `"PROCESSING"`: `get_task_status` returns a view with status
`processing` but writes nothing — the returned database still holds the row
with status `"pending"`, contradicting the claim that the transition to
Running is persisted before returning. -/
theorem get_task_status_running_not_persisted_cex :
    pendingRow.status = "pending" ∧
    get_task_status "t3" 1 [pendingRow] processingEx =
      (Except.ok { task_id := "t3", status := TaskStatus.processing,
                   result := none, error := none },
       [pendingRow]) ∧
    pendingRow.status ≠ "processing" :=
  ⟨rfl, rfl, by decide⟩

/-- Claim C5, amended. When the persisted record is Pending and the executor
reports `"PROCESSING"`, `get_task_status` returns the merged view with status
`processing` but performs no write: the database is returned unchanged, so a
subsequent poll depends only on the executor's then-current state. -/
theorem get_task_status_processing_view_without_persist (tid : String)
    (uid : Nat) (db : List ChatTask) (row : ChatTask) (task : AsyncResult)
    (hfound : db.find? (fun t => t.id == tid && t.user_id == uid) = some row)
    (_hpend : row.status = "pending") (hstate : task.state = "PROCESSING") :
    get_task_status tid uid db task =
      (Except.ok { task_id := tid, status := TaskStatus.processing,
                   result := none, error := none }, db) := by
  simp [get_task_status, hfound, status_mapping_get, AsyncResult.successful,
    AsyncResult.isFailed, hstate]

/-- Claim C5, witness: the amended theorem at a pending record with a running
executor task. -/
theorem get_task_status_processing_view_without_persist_witness :
    get_task_status "t3" 1 [pendingRow] processingEx =
      (Except.ok { task_id := "t3", status := TaskStatus.processing,
                   result := none, error := none }, [pendingRow]) :=
  get_task_status_processing_view_without_persist "t3" 1 [pendingRow] pendingRow
    processingEx rfl rfl rfl

/-- Claim C6, counterexample. For the same terminal persisted record, two
different executor states yield two different responses: the returned view is
a function of the executor's live state, so the executor round-trip is not
skipped for terminal records, contradicting the claim. -/
theorem get_task_status_terminal_poll_dependence_cex :
    completedRow.status = "completed" ∧
    (get_task_status "t1" 1 [completedRow] successEx).1 =
      Except.ok { task_id := "t1", status := TaskStatus.completed,
                  result := some "fresh answer", error := none } ∧
    (get_task_status "t1" 1 [completedRow] unknownHandleResult).1 =
      Except.ok { task_id := "t1", status := TaskStatus.pending,
                  result := none, error := none } ∧
    TaskStatus.completed ≠ TaskStatus.pending :=
  ⟨rfl, rfl, rfl, by decide⟩

/-- Claim C6, amended. `get_task_status` consults the executor on every call,
including when the persisted record is terminal: whenever two executor views
map to different statuses, the responses for the same terminal record differ,
so the returned view is not independent of the executor's state. -/
theorem get_task_status_always_consults_executor (tid : String) (uid : Nat)
    (db : List ChatTask) (row : ChatTask) (a b : AsyncResult)
    (hfound : db.find? (fun t => t.id == tid && t.user_id == uid) = some row)
    (_hterm : row.status = "completed" ∨ row.status = "failed")
    (hdiff : status_mapping_get a.state ≠ status_mapping_get b.state) :
    (get_task_status tid uid db a).1 ≠ (get_task_status tid uid db b).1 := by
  rw [get_task_status_found_eq tid uid db a row hfound,
    get_task_status_found_eq tid uid db b row hfound]
  intro h
  rw [Except.ok.injEq, BackgroundTaskResponse.mk.injEq] at h
  exact hdiff h.2.1

/-- Claim C6, witness: the amended theorem at a completed record under a
succeeded executor view versus an expired one. -/
theorem get_task_status_always_consults_executor_witness :
    (get_task_status "t1" 1 [completedRow] successEx).1 ≠
      (get_task_status "t1" 1 [completedRow] unknownHandleResult).1 :=
  get_task_status_always_consults_executor "t1" 1 [completedRow] completedRow
    successEx unknownHandleResult rfl (Or.inl rfl) (by decide)

/-- Claim C7: every view produced by `get_task_status` for an existing owned
record populates result exactly when the status is `completed`, error exactly
when the status is `failed`, and neither when the status is non-terminal. The
hypothesis that a `"SUCCESS"` executor view carries a result value reflects
`process_long_chat_task`, whose return value on success is always a dict. -/
theorem get_task_status_result_error_exclusive
    (tid : String) (uid : Nat) (db : List ChatTask) (task : AsyncResult) (row : ChatTask)
    (hfound : db.find? (fun t => t.id == tid && t.user_id == uid) = some row)
    (hretval : task.state = "SUCCESS" → task.retval.isSome = true) :
    ∃ resp, (get_task_status tid uid db task).1 = Except.ok resp ∧
      (resp.status = TaskStatus.completed → resp.result.isSome = true ∧ resp.error = none) ∧
      (resp.status = TaskStatus.failed → resp.result = none ∧ resp.error.isSome = true) ∧
      (resp.status.isTerminal = false → resp.result = none ∧ resp.error = none) := by
  refine ⟨_, get_task_status_found_eq tid uid db task row hfound, ?_, ?_, ?_⟩
  · intro h
    rw [status_mapping_get_eq_completed_iff] at h
    simp only [AsyncResult.successful, AsyncResult.isFailed, h]
    simp
    exact hretval h
  · intro h
    rw [status_mapping_get_eq_failed_iff] at h
    simp only [AsyncResult.successful, AsyncResult.isFailed, h]
    simp
  · intro h
    rw [Bool.eq_false_iff, Ne, status_mapping_get_isTerminal_iff] at h
    push_neg at h
    simp [AsyncResult.successful, AsyncResult.isFailed, h.1, h.2]

/-- Claim C7, witness: the exclusivity theorem at a succeeded executor view of
an owned record. -/
theorem get_task_status_result_error_exclusive_witness :
    ∃ resp, (get_task_status "t1" 1 [completedRow] successEx).1 = Except.ok resp ∧
      (resp.status = TaskStatus.completed → resp.result.isSome = true ∧ resp.error = none) ∧
      (resp.status = TaskStatus.failed → resp.result = none ∧ resp.error.isSome = true) ∧
      (resp.status.isTerminal = false → resp.result = none ∧ resp.error = none) :=
  get_task_status_result_error_exclusive "t1" 1 [completedRow] successEx completedRow
    rfl (fun _ => rfl)

/-- Claim C8: the NotFound outcome is identical whether the job id is absent
from the table or present but owned by another principal — both produce
exactly the 404 "Task not found" error, for any executor states, so the
caller cannot distinguish the two cases. -/
theorem get_task_status_notfound_indistinguishable (tid : String) (uid : Nat)
    (dbA dbB : List ChatTask) (taskA taskB : AsyncResult)
    (hA : ∀ r ∈ dbA, r.id ≠ tid)
    (hB : ∀ r ∈ dbB, r.id = tid → r.user_id ≠ uid) :
    (get_task_status tid uid dbA taskA).1 = (get_task_status tid uid dbB taskB).1 ∧
    (get_task_status tid uid dbA taskA).1 =
      Except.error { status_code := 404, detail := "Task not found" } := by
  have hfA : dbA.find? (fun t => t.id == tid && t.user_id == uid) = none := by
    rw [List.find?_eq_none]
    intro x hx
    simp only [Bool.and_eq_true, beq_iff_eq, not_and]
    intro hid
    exact absurd hid (hA x hx)
  have hfB : dbB.find? (fun t => t.id == tid && t.user_id == uid) = none := by
    rw [List.find?_eq_none]
    intro x hx
    simp only [Bool.and_eq_true, beq_iff_eq, not_and]
    intro hid huid
    exact hB x hx hid huid
  constructor <;> simp [get_task_status, hfA, hfB]

/-- Claim C8, witness: an id absent from one table and owned by someone else
in another produce the same 404 response. -/
theorem get_task_status_notfound_indistinguishable_witness :
    (get_task_status "t1" 2 [processingRow] successEx).1 =
      (get_task_status "t1" 2 [completedRow] unknownHandleResult).1 ∧
    (get_task_status "t1" 2 [processingRow] successEx).1 =
      Except.error { status_code := 404, detail := "Task not found" } :=
  get_task_status_notfound_indistinguishable "t1" 2 [processingRow] [completedRow]
    successEx unknownHandleResult (by decide) (by decide)

/-- Claim C9: `get_task_status` never writes to the record store — for every
call, the `chat_tasks` table after the call is exactly the table before it,
row for row and field for field. -/
theorem get_task_status_database_unchanged (tid : String) (uid : Nat)
    (db : List ChatTask) (task : AsyncResult) :
    (get_task_status tid uid db task).2 = db := by
  unfold get_task_status
  split <;> rfl

/-- Claim C10: for every Celery state string outside
{"PENDING", "PROCESSING", "SUCCESS", "FAILURE"}, the `status_mapping.get`
lookup in `get_task_status` falls back to its default `TaskStatus.pending`,
so any unknown, revoked or retried executor state is reported to the caller
as Pending. -/
theorem get_task_status_unknown_state_pending (s : String)
    (h1 : s ≠ "PENDING") (h2 : s ≠ "PROCESSING") (h3 : s ≠ "SUCCESS") (h4 : s ≠ "FAILURE") :
    status_mapping_get s = TaskStatus.pending ∧
    ∀ (tid : String) (uid : Nat) (db : List ChatTask) (task : AsyncResult) (row : ChatTask),
      db.find? (fun t => t.id == tid && t.user_id == uid) = some row →
      task.state = s →
      ∃ resp, (get_task_status tid uid db task).1 = Except.ok resp ∧
        resp.status = TaskStatus.pending := by
  have hmap : status_mapping_get s = TaskStatus.pending := by
    unfold status_mapping_get
    split_ifs with g1 g2 g3 g4 <;> simp_all
  refine ⟨hmap, ?_⟩
  intro tid uid db task row hfound hstate
  refine ⟨_, get_task_status_found_eq tid uid db task row hfound, ?_⟩
  show status_mapping_get task.state = TaskStatus.pending
  rw [hstate]
  exact hmap

/-- Claim C10, witness: the revoked state `"REVOKED"` is reported as Pending
for an owned record. -/
theorem get_task_status_unknown_state_pending_witness :
    ∃ resp, (get_task_status "t1" 1 [completedRow]
        { state := "REVOKED", retval := none, info := "revoked" }).1 = Except.ok resp ∧
      resp.status = TaskStatus.pending :=
  (get_task_status_unknown_state_pending "REVOKED"
      (by decide) (by decide) (by decide) (by decide)).2
    "t1" 1 [completedRow] { state := "REVOKED", retval := none, info := "revoked" }
    completedRow rfl rfl
